import Mathlib

/-!
Verification of the MKernel interactive execution bridge
(`src/mkernel/kernel.py` and the MATLAB snippets embedded in it).

The development shallowly embeds the data model and operations of the
kernel: the fixed format and content-type tables, the capture-mode
resolution, the backspace normalization loop of the output stream
class, the completion tokenizer, the plot-extraction script, and the
`do_execute` orchestrator (modelled as a pure function from an
environment describing the outcomes of the external engine calls to
the trace of emitted events and the structured reply).
-/

set_option autoImplicit false
set_option linter.unusedVariables false

namespace MKernel

/-! ### Fixed tables -/

/-- The supported plot formats, the field names of the MATLAB struct
`MKernel__formats` in `_get_check_set` (kernel.py lines 46-48). -/
def supportedFormats : List String :=
  ["png", "svg", "jpeg", "tiff", "tiffn", "meta", "pdf", "eps", "epsc", "eps2", "eps2c"]

/-- The MATLAB struct `MKernel__formats`: plot format code to file
extension (without the dot), kernel.py lines 46-48. -/
def MKernel_formats : String → Option String
  | "png" => some "png"
  | "svg" => some "svg"
  | "jpeg" => some "jpg"
  | "tiff" => some "tiff"
  | "tiffn" => some "tiff"
  | "meta" => some "emf"
  | "pdf" => some "pdf"
  | "eps" => some "eps"
  | "epsc" => some "eps"
  | "eps2" => some "eps"
  | "eps2c" => some "eps"
  | _ => none

/-- The Python `mimetype` dict in `do_execute` (kernel.py lines 316-324):
file extension (with the dot) to content type.  A key absent from the
table makes `mimetype[extension]` raise `KeyError`, modelled as `none`. -/
def mimetype : String → Option String
  | ".jpg" => some "image/jpeg"
  | ".png" => some "image/png"
  | ".tif" => some "image/tiff"
  | ".emf" => some "application/emf"
  | ".pdf" => some "application/pdf"
  | ".eps" => some "application/postscript"
  | ".svg" => some "image/svg+xml"
  | _ => none

/-! ### String helpers used by the embedding -/

/-- Split a character list at dots, keeping empty parts
(the behaviour of splitting a basename at `.`). The second argument
accumulates the current part in reverse. -/
def splitDot : List Char → List Char → List (List Char)
  | [], cur => [cur.reverse]
  | c :: rest, cur =>
      if c = '.' then cur.reverse :: splitDot rest []
      else splitDot rest (c :: cur)

/-- `os.path.splitext(filename)[1]`: the extension (with its dot) of the
last path component, empty when the basename has no dot or only
leading dots. -/
def extOf (f : String) : String :=
  let base := (f.toList.reverse.takeWhile (fun c => ¬ (c = '/'))).reverse
  let parts := splitDot base []
  if parts.length ≤ 1 then ""
  else if parts.dropLast.all (fun p => p.isEmpty) then ""
  else String.mk ('.' :: parts.getLastD [])

/-- Whitespace characters for Python `str.split()` with no argument. -/
def wsChar (c : Char) : Bool := c = ' ' ∨ c = '\n' ∨ c = '\t' ∨ c = '\r'

/-- Helper for `splitWS`: split on whitespace runs, dropping empty
fields; the second argument accumulates the current field in reverse. -/
def splitWSList : List Char → List Char → List (List Char)
  | [], cur => if cur.isEmpty then [] else [cur.reverse]
  | c :: rest, cur =>
      if wsChar c then
        if cur.isEmpty then splitWSList rest []
        else cur.reverse :: splitWSList rest []
      else splitWSList rest (c :: cur)

/-- Python `str.split()` with no argument: split on whitespace runs,
dropping empty fields (used on the captured stdout of `_write_plots`). -/
def splitWS (s : String) : List String :=
  (splitWSList s.toList []).map fun l => String.mk l

/-- MATLAB `num2str(index, "%06d")`: decimal digits zero-padded to
width 6. -/
def pad6 (n : Nat) : String :=
  let s := toString n
  String.mk (List.replicate (6 - s.length) '0') ++ s

/-- MATLAB `lower(...)` on a string. -/
def lowerStr (s : String) : String := String.mk (s.toList.map Char.toLower)

/-- `pre` is a leading segment of `cs`. -/
def listStarts : List Char → List Char → Bool
  | [], _ => true
  | _ :: _, [] => false
  | p :: ps, c :: cs => p = c && listStarts ps cs

/-- Python `code.startswith(pre)`. -/
def codeStarts (code pre : String) : Bool := listStarts pre.toList code.toList

/-! ### Capture strategy selection -/

/-- Capture mode resolution, kernel.py lines 244-252: the persisted
mode read from the engine (already defaulted to `"auto"` when the read
fails), the per-request `allow_stdin` flag, and whether the wurlitzer
`pipes` mechanism could be imported (`wrapperAvailable`). -/
def resolveCapture (captureRaw : String) (allowStdin wrapperAvailable : Bool) : String :=
  let c := if captureRaw = "auto" then (if allowStdin then "wrapper" else "engine") else captureRaw
  if wrapperAvailable then c else "engine"

/-! ### Output stream normalization: the backspace loop

The `StreamIO.write` method (kernel.py lines 519-524) repeatedly runs
`_re_char_backspace.subn('', text)` with pattern
`[^\b\n]\b` until a pass makes zero replacements.  One pass of the
regex substitution scans left to right, and at each position removes a
(non-backspace, non-newline) character followed by a backspace, or
otherwise moves on by one character. -/

/-- The backspace character `\b`. -/
def bsCh : Char := '\x08'

/-- One pass of `_re_char_backspace.subn('', text)`: the remaining
text and the number of replacements made. -/
def onePass : List Char → List Char × Nat
  | [] => ([], 0)
  | [c] => ([c], 0)
  | c :: d :: rest =>
      if (¬ (c = bsCh) ∧ ¬ (c = '\n')) ∧ d = bsCh then
        let p := onePass rest
        (p.1, p.2 + 1)
      else
        let p := onePass (d :: rest)
        (c :: p.1, p.2)

/-- The loop of `StreamIO.write` with an explicit iteration budget;
`none` when the budget runs out before a pass makes zero
replacements.  The termination theorem below shows a budget of
`length + 1` always suffices. -/
def bsLoopFuel : Nat → List Char → Option (List Char)
  | 0, _ => none
  | k + 1, cs =>
      let p := onePass cs
      if p.2 = 0 then some p.1 else bsLoopFuel k p.1

/-- The `while n > 0` loop of `StreamIO.write`, run with a budget. -/
def resolveBSAux : Nat → List Char → List Char
  | 0, cs => cs
  | k + 1, cs =>
      let p := onePass cs
      if p.2 = 0 then p.1 else resolveBSAux k p.1

/-- The `while n > 0` loop of `StreamIO.write`: run passes until one
makes zero replacements, and keep that pass's text (the budget
`length + 1` is proven sufficient below). -/
def resolveBS (cs : List Char) : List Char := resolveBSAux (cs.length + 1) cs

/-- Every backspace in the text is immediately preceded by a character
that is neither a newline nor a backspace, i.e. the text contains
backspaces only as second halves of character-backspace pairs not
adjacent to a newline.  `prev` is the character just before the
remaining text. -/
def bsPairedTail (prev : Char) : List Char → Bool
  | [] => true
  | c :: rest =>
      (if c = bsCh then decide (¬ (prev = bsCh) ∧ ¬ (prev = '\n')) else true)
        && bsPairedTail c rest

/-- The whole-text form of `bsPairedTail`: additionally the text does
not start with a backspace. -/
def bsPaired : List Char → Bool
  | [] => true
  | c :: rest => (¬ (c = bsCh) : Bool) && bsPairedTail c rest

/-- Terminal-style backspace semantics, the specification the
normalizer is claimed to implement: scanning left to right, a
backspace erases the immediately preceding character provided that
character is neither a newline nor a backspace; otherwise the
backspace is kept. -/
def termStep (acc : List Char) (c : Char) : List Char :=
  if c = bsCh then
    match acc with
    | [] => c :: acc
    | p :: acc' => if p = '\n' ∨ p = bsCh then c :: acc else acc'
  else c :: acc

def termErase (cs : List Char) : List Char := (cs.foldl termStep []).reverse

/-! ### Completion tokenizer

`_re_tokens = ([a-zA-Z_0-9\.]* | \n+ | [^a-zA-Z_0-9\.\n]+)` scanned
with `finditer` (kernel.py lines 137-139 and 413-418).  The
alternatives are tried in order, so at a position whose character is
not in the identifier class the first alternative matches the empty
string; `finditer` then retries at the same position requiring a
non-empty match (which the newline or other-run alternative provides),
and moves on one position only at the end of the input.  `pyTokens`
composes one empty match and its non-empty retry into consecutive
emitted tokens. -/

/-- The identifier-or-number character class `[a-zA-Z_0-9\.]`. -/
def idChar (c : Char) : Bool :=
  decide (('a' ≤ c ∧ c ≤ 'z') ∨ ('A' ≤ c ∧ c ≤ 'Z') ∨ ('0' ≤ c ∧ c ≤ '9') ∨ c = '_' ∨ c = '.')

/-- The third alternative's class `[^a-zA-Z_0-9\.\n]`. -/
def otherChar (c : Char) : Bool := (!(idChar c)) && (!(decide (c = '\n')))

/-- The scanner with an explicit budget; every step consumes at least
one character, and `pyTokens` below supplies a budget proven
sufficient, so the zero-budget case is never reached. -/
def pyTokensAux : Nat → List Char → List (List Char)
  | 0, _ => []
  | _ + 1, [] => [[]]
  | k + 1, c :: rest =>
      if idChar c then
        (c :: rest).takeWhile idChar :: pyTokensAux k ((c :: rest).dropWhile idChar)
      else if c = '\n' then
        [] :: ((c :: rest).takeWhile (fun d => d = '\n') ::
          pyTokensAux k ((c :: rest).dropWhile (fun d => d = '\n')))
      else
        [] :: ((c :: rest).takeWhile otherChar ::
          pyTokensAux k ((c :: rest).dropWhile otherChar))

/-- The token sequence produced by scanning the code with `_re_tokens`:
greedy identifier-or-number runs, newline runs, and runs of any other
characters, with the zero-width matches the first alternative produces
at non-identifier positions (and at the end of the input). -/
def pyTokens (cs : List Char) : List (List Char) := pyTokensAux (cs.length + 1) cs

/-! ### The execution orchestrator

`do_execute` (kernel.py lines 206-333) is modelled as a pure function.
The outcomes of the calls into the external Matlab engine (which may
succeed, raise, or return data) are supplied by an `ExecEnv`
environment; the function returns the trace of events it performs
(engine calls, file operations, and messages sent on the iopub socket)
together with the value `do_execute` returns — or the uncaught
exception it raises, as `Except.error`. -/

/-- The structured reply assembled at kernel.py lines 211-216. -/
structure Reply where
  status : String
  execution_count : Nat
deriving DecidableEq

/-- A message sent on the iopub socket: a `stream` message
(`_send_text`), a `display_data` message (`_send_data`), or the
`execute_result` response to a Quarto setup cell. -/
inductive Msg where
  | stream (name text : String)
  | displayData (mime data : String)
  | executeResult (execution_count : Nat) (daemonize : Bool)
deriving DecidableEq

/-- An event performed by `do_execute`. -/
inductive Ev where
  | enginePrepare
  | engineGetCapture
  | engineEval (code capture : String)
  | engineDel
  | engineStart
  | engineWritePlots
  | fsOpen (f : String)
  | fsRead (f : String)
  | fsClose (f : String)
  | fsDelete (f : String)
  | send (m : Msg)
deriving DecidableEq

/-- Outcome of the main `self._matlab.eval(code, ...)` call:
success, a `SyntaxError`/`MatlabExecutionError` (guest-language error),
a `matlab.engine.InterruptedError` (engine stopped by `quit`/`exit`),
or any other exception. -/
inductive EvalOutcome where
  | ok
  | guestError
  | interrupted
  | otherError
deriving DecidableEq

/-- Outcomes of the external calls made during one `do_execute`. -/
structure ExecEnv where
  /-- `some m`: the `_prepare_execution` eval raised an exception with
  message `m`. -/
  prepareError : Option String
  /-- Result of `getappdata(0, 'MKernel_output_capture')`; `none` when
  the call raised (the code then falls back to `"auto"`). -/
  captureAppData : Option String
  /-- Outcome of the main code eval. -/
  evalOutcome : EvalOutcome
  /-- Whether finalizing the engine handle raises
  `matlab.engine.SystemError` (swallowed at kernel.py lines 287-291). -/
  delSystemError : Bool
  /-- `some (stdout, stderr)` captured from the `_write_plots` eval;
  `none` when that eval raised. -/
  plotsOutcome : Option (String × String)
  /-- The message of the exception when the `_write_plots` eval raised. -/
  plotsErrMsg : String
  /-- Contents of each plot file on disk (sent as the data payload,
  kernel.py lines 328-330 and 345-358). -/
  contents : String → String

/-- The Quarto setup-cell marker checked at kernel.py line 219. -/
def quartoMagic : String := "% setup 2d7a65c64eb8bb2b9cba670d8e11cef1"

/-- The fixed message reported when the engine was stopped by the
user, kernel.py lines 277-282. -/
def interruptMsg : String :=
  "MKernel does not support `quit` or `exit`.\n" ++
  "To shut down the kernel in the console, press Ctrl-D.\n" ++
  "To shut down the kernel in a notebook, stop the notebook.\n" ++
  "Restarting Matlab.\n"

/-- `del self._matlab; gc.collect()` (kernel.py lines 283-291):
finalizes the engine handle, whose own exit call may fail a second
time with `SystemError`; the caller discards that failure. -/
def destroyEngine (raisesSystemError : Bool) : List Ev × Except String Unit :=
  ([Ev.engineDel], if raisesSystemError then Except.error "SystemError" else Except.ok ())

/-- The plot-processing loop of kernel.py lines 325-330: for each
filename, compute the extension, open and read the file (the `with`
block closes it), and send the bytes as a `display_data` message with
the content type `mimetype[extension]` — a lookup that raises
`KeyError` (modelled as `Except.error`) when the extension is not in
the table, aborting `do_execute`. -/
def processPlots (contents : String → String) : List String → List Ev × Except String Unit
  | [] => ([], Except.ok ())
  | f :: rest =>
      let ext := extOf f
      let pre := [Ev.fsOpen f, Ev.fsRead f, Ev.fsClose f]
      match mimetype ext with
      | none => (pre, Except.error ext)
      | some mt =>
          let r := processPlots contents rest
          (pre ++ Ev.send (Msg.displayData mt (contents f)) :: r.1, r.2)

/-- The `do_execute` orchestrator (kernel.py lines 206-333). -/
def doExecute (env : ExecEnv) (code : String) (silent allowStdin : Bool)
    (executionCount : Nat) (wrapperAvailable : Bool) :
    List Ev × Except String Reply :=
  let reply : Reply := ⟨"ok", executionCount⟩
  if codeStarts code quartoMagic then
    ([Ev.send (Msg.executeResult executionCount true)], Except.ok reply)
  else
    let prepTrace := Ev.enginePrepare ::
      (match env.prepareError with
       | some e => [Ev.send (Msg.stream "stderr" ("MKernel: " ++ e))]
       | none => [])
    let captureRaw := (env.captureAppData).getD "auto"
    let capture := resolveCapture captureRaw allowStdin wrapperAvailable
    let evalTrace :=
      match env.evalOutcome with
      | EvalOutcome.interrupted =>
          Ev.engineEval code capture ::
            Ev.send (Msg.stream "stderr" interruptMsg) ::
            ((destroyEngine env.delSystemError).1 ++ [Ev.engineStart])
      | _ => [Ev.engineEval code capture]
    let plotPhase :=
      match env.plotsOutcome with
      | some (out, err) => ([Ev.engineWritePlots], splitWS out, err)
      | none =>
          ([Ev.engineWritePlots,
            Ev.send (Msg.stream "stderr" ("MKernel: " ++ env.plotsErrMsg))],
            ([] : List String), "")
    let plotErrTrace :=
      if 0 < plotPhase.2.2.length then
        [Ev.send (Msg.stream "stderr" ("MKernel: Errors saving plots." ++ plotPhase.2.2))]
      else []
    let proc := processPlots env.contents plotPhase.2.1
    (prepTrace ++ Ev.engineGetCapture :: evalTrace ++ plotPhase.1 ++ plotErrTrace ++ proc.1,
      match proc.2 with
      | Except.ok _ => Except.ok reply
      | Except.error e => Except.error e)

/-- A benign environment: every engine call succeeds, one PNG plot. -/
def envPng : ExecEnv :=
  { prepareError := none
    captureAppData := some "engine"
    evalOutcome := EvalOutcome.ok
    delSystemError := false
    plotsOutcome := some ("t/000001.png\n", "")
    plotsErrMsg := ""
    contents := fun _ => "PNGDATA" }

/-- An environment in which the guest code has a syntax error and the
persisted plot format was tiff, with one open figure. -/
def envTiff : ExecEnv :=
  { prepareError := none
    captureAppData := some "engine"
    evalOutcome := EvalOutcome.guestError
    delSystemError := false
    plotsOutcome := some ("t/000001.tiff\n", "")
    plotsErrMsg := ""
    contents := fun _ => "" }

/-- An environment in which the user ran `quit`: the eval raises the
interrupt signal, the handle finalization raises `SystemError`, and
one PNG figure is pending. -/
def envQuit : ExecEnv :=
  { prepareError := none
    captureAppData := some "auto"
    evalOutcome := EvalOutcome.interrupted
    delSystemError := true
    plotsOutcome := some ("t/000001.png\n", "")
    plotsErrMsg := ""
    contents := fun _ => "P" }

/-! ### Plot artifact lifecycle -/

/-- Whether an event deletes a file. -/
def evIsDelete : Ev → Bool
  | Ev.fsDelete _ => true
  | _ => false

/-- Whether an event sends a `display_data` message. -/
def evIsDisplay : Ev → Bool
  | Ev.send (Msg.displayData _ _) => true
  | _ => false

/-! ### The engine-side plot pipeline

The MATLAB scripts `_get_check_set` (kernel.py lines 31-71) and
`_write_plots` (lines 80-123), run by the engine during the
plot-extraction phase.  Engine-side `appdata` state is an `AppData`
record of the persisted `MKernel_*` values (`none` when unset); open
figure windows (in creation order, as produced by
`flipud(get(0, "children"))`) are a list of `Figure`s, each of which
may fail to print with a message. -/

/-- Engine-side persisted configuration (`getappdata`/`setappdata`). -/
structure AppData where
  plot_backend : Option String
  plot_format : Option String
  plot_resolution : Option Int
  output_capture : Option String
deriving DecidableEq

/-- One open figure window. -/
structure Figure where
  number : Nat
  printFails : Bool
  errMsg : String
deriving DecidableEq

/-- The four validated configuration values. -/
structure PlotConfig where
  backend : String
  format : String
  resolution : Int
  capture : String
deriving DecidableEq

/-- `_get_check_set`: lower-case, default, persist and validate the
four configuration values; a failed `assert` raises with the given
message.  `screenDPI` stands for `get(0, "ScreenPixelsPerInch")`. -/
def getCheckSet (screenDPI : Int) (ad : AppData) : Except String (PlotConfig × AppData) :=
  let backend := lowerStr ((ad.plot_backend).getD "inline")
  let format := lowerStr ((ad.plot_format).getD "png")
  let resolution := (ad.plot_resolution).getD screenDPI
  let capture := lowerStr ((ad.output_capture).getD "auto")
  if ¬ (backend = "inline" ∨ backend = "native") then
    Except.error ("Unknown plot backend '" ++ backend ++ "'")
  else if (MKernel_formats format).isNone then
    Except.error ("Unknown plot format '" ++ format ++ "'")
  else if ¬ (0 < resolution) then
    Except.error "Invalid plot resolution, must be positive integer scalar"
  else if ¬ (capture = "auto" ∨ capture = "wrapper" ∨ capture = "engine") then
    Except.error ("Unknown output capture '" ++ capture ++ "'")
  else
    Except.ok (⟨backend, format, resolution, capture⟩,
      ⟨some backend, some format, some resolution, some capture⟩)

/-- The `for` loop of `_write_plots` over the figure windows in
creation order: print each to `tmpdir/<index %06d>.<ext>` and echo
that filename on stdout, or report the per-figure failure on stderr;
returns the accumulated (stdout, stderr). -/
def renderFigures (tmpdir ext : String) : Nat → List Figure → String × String
  | _, [] => ("", "")
  | idx, f :: rest =>
      let r := renderFigures tmpdir ext (idx + 1) rest
      if f.printFails then
        (r.1, ("\n  Figure " ++ toString f.number ++ ": " ++ f.errMsg) ++ r.2)
      else
        ((tmpdir ++ "/" ++ pad6 idx ++ "." ++ ext ++ "\n") ++ r.1, r.2)

/-- `_write_plots`: validate the configuration, then — only for the
inline backend — render every open figure window and close it; for
any other backend the figures are left untouched and nothing is
written.  Returns (stdout, stderr, figures still open). -/
def writePlotsScript (screenDPI : Int) (ad : AppData) (figs : List Figure) (tmpdir : String) :
    Except String (String × String × List Figure) :=
  match getCheckSet screenDPI ad with
  | Except.error e => Except.error e
  | Except.ok (cfg, _) =>
      if cfg.backend = "inline" then
        let ext := (MKernel_formats cfg.format).getD ""
        let r := renderFigures tmpdir ext 1 figs
        Except.ok (r.1, r.2, [])
      else
        Except.ok ("", "", figs)

/-- An environment in which the plot script wrote nothing (native
backend: no extraction). -/
def envNative : ExecEnv := { envPng with plotsOutcome := some ("", "") }

/-- The persisted state with backend native and everything else unset. -/
def adNative : AppData := ⟨some "native", none, none, none⟩

example : resolveCapture "auto" true true = "wrapper" := by decide
example : resolveCapture "auto" false false = "engine" := by decide
example : resolveCapture "wrapper" true false = "engine" := by decide

/-- Each replacement of a pass removes exactly two characters. -/
theorem onePass_len : ∀ cs : List Char, (onePass cs).1.length + 2 * (onePass cs).2 = cs.length
  | [] => rfl
  | [_] => rfl
  | c :: d :: rest => by
      by_cases h : (¬ (c = bsCh) ∧ ¬ (c = '\n')) ∧ d = bsCh
      · have ih := onePass_len rest
        simp only [onePass, if_pos h, List.length_cons]
        omega
      · have ih := onePass_len (d :: rest)
        simp only [onePass, if_neg h]
        simp only [List.length_cons] at ih ⊢
        omega

/-- A pass that made at least one replacement strictly shortens the text. -/
theorem onePass_lt (cs : List Char) (h : ¬ (onePass cs).2 = 0) :
    (onePass cs).1.length < cs.length := by
  have := onePass_len cs
  omega

theorem bsLoopFuel_mono : ∀ (k k' : Nat) (cs : List Char) (r : List Char),
    k ≤ k' → bsLoopFuel k cs = some r → bsLoopFuel k' cs = some r
  | 0, _, _, _, _, h => by simp [bsLoopFuel] at h
  | k + 1, k' + 1, cs, r, hle, h => by
      simp only [bsLoopFuel] at h ⊢
      by_cases hz : (onePass cs).2 = 0
      · simpa [hz] using h
      · simp only [if_neg hz] at h ⊢
        exact bsLoopFuel_mono k k' _ r (Nat.le_of_succ_le_succ hle) h

/-- When the fuelled loop reports a result, the total loop computes it. -/
theorem bsLoopFuel_resolveAux : ∀ (k : Nat) (cs r : List Char),
    bsLoopFuel k cs = some r → resolveBSAux k cs = r
  | 0, _, _, h => by simp [bsLoopFuel] at h
  | k + 1, cs, r, h => by
      simp only [bsLoopFuel] at h
      simp only [resolveBSAux]
      by_cases hz : (onePass cs).2 = 0
      · simp only [if_pos hz] at h ⊢
        exact Option.some.inj h
      · simp only [if_neg hz] at h ⊢
        exact bsLoopFuel_resolveAux k _ r h

/-- A budget of `length + 1` always reaches a zero-replacement pass. -/
theorem bsLoopFuel_some : ∀ (n : Nat) (cs : List Char), cs.length ≤ n →
    ∃ r, bsLoopFuel (n + 1) cs = some r := by
  intro n
  induction n with
  | zero =>
      intro cs h
      match cs, h with
      | [], _ => exact ⟨[], rfl⟩
  | succ n ih =>
      intro cs h
      by_cases hz : (onePass cs).2 = 0
      · exact ⟨(onePass cs).1, by simp [bsLoopFuel, hz]⟩
      · have hlen := onePass_len cs
        have h1 : (onePass cs).1.length ≤ n := by omega
        obtain ⟨r, hr⟩ := ih (onePass cs).1 h1
        exact ⟨r, by simp only [bsLoopFuel, if_neg hz]; exact hr⟩

example : resolveBS "abc\x08d".toList = "abd".toList := by decide
example : resolveBS "ab\x08\x08c".toList = "c".toList := by decide
example : resolveBS "a\x08\x08".toList = "\x08".toList := by decide

example : bsPaired "abc\x08d".toList = true := by decide
example : bsPaired "a\x08\x08".toList = false := by decide
example : bsPaired "\n\x08".toList = false := by decide

example : termErase "abc\x08d".toList = "abd".toList := by decide

/-- Induction principle following the two-character window of `onePass`. -/
theorem twoStepInduction {P : List Char → Prop} (h0 : P []) (h1 : ∀ c, P [c])
    (h2 : ∀ c d rest, P rest → P (d :: rest) → P (c :: d :: rest)) : ∀ cs, P cs
  | [] => h0
  | [c] => h1 c
  | c :: d :: rest =>
      h2 c d rest (twoStepInduction h0 h1 h2 rest) (twoStepInduction h0 h1 h2 (d :: rest))

/-- Text without backspaces is a fixed point of the substitution pass. -/
theorem onePass_noBS : ∀ cs : List Char, bsCh ∉ cs → onePass cs = (cs, 0)
  | [] => fun _ => rfl
  | [_] => fun _ => rfl
  | c :: d :: rest => fun h => by
      have hd : ¬ d = bsCh := fun hdd => h (by simp [hdd])
      have hcond : ¬ (((¬ (c = bsCh)) ∧ ¬ (c = '\n')) ∧ d = bsCh) := fun hc => hd hc.2
      have ih := onePass_noBS (d :: rest) (fun hm => h (List.mem_cons_of_mem c hm))
      simp only [onePass, if_neg hcond, ih]

/-- After a backspace whose pair was checked, the rest of the text is
itself fully paired. -/
theorem bsPairedTail_bs {rest : List Char} (h : bsPairedTail bsCh rest = true) :
    bsPaired rest = true := by
  cases rest with
  | nil => rfl
  | cons e rest' =>
      simp only [bsPairedTail, Bool.and_eq_true] at h
      by_cases he : e = bsCh
      · rw [if_pos he] at h
        simp at h
      · simpa [bsPaired, he] using h.2

/-- Structure of `bsPaired` on a two-character window, backspace case. -/
theorem bsPaired_cons_bs {c : Char} {rest : List Char}
    (h : bsPaired (c :: bsCh :: rest) = true) :
    (¬ (c = bsCh) ∧ ¬ (c = '\n')) ∧ bsPaired rest = true := by
  simp only [bsPaired, bsPairedTail, Bool.and_eq_true, if_pos rfl] at h
  obtain ⟨hc, hpair, htail⟩ := h
  refine ⟨by simpa using hpair, bsPairedTail_bs htail⟩

/-- Structure of `bsPaired` on a two-character window, other case. -/
theorem bsPaired_cons_other {c d : Char} {rest : List Char}
    (hd : ¬ d = bsCh) (h : bsPaired (c :: d :: rest) = true) :
    ¬ (c = bsCh) ∧ bsPaired (d :: rest) = true := by
  simp only [bsPaired, bsPairedTail, Bool.and_eq_true, if_neg hd] at h
  obtain ⟨hc, _, htail⟩ := h
  refine ⟨by simpa using hc, ?_⟩
  simp [bsPaired, hd, htail]

/-- On fully paired text, one substitution pass removes every backspace. -/
theorem onePass_paired_noBS : ∀ cs : List Char, bsPaired cs = true →
    bsCh ∉ (onePass cs).1 := by
  refine twoStepInduction (by simp [onePass]) (fun c => ?_) (fun c d rest ih1 ih2 => ?_)
  · intro h
    simp only [bsPaired, Bool.and_eq_true] at h
    have : ¬ (c = bsCh) := by simpa using h.1
    simp only [onePass]
    simp [this, eq_comm]
  · intro h
    by_cases hd : d = bsCh
    · subst hd
      obtain ⟨hc, hrest⟩ := bsPaired_cons_bs h
      have hop : onePass (c :: bsCh :: rest) = ((onePass rest).1, (onePass rest).2 + 1) := by
        simp [onePass, hc.1, hc.2]
      rw [hop]
      exact ih1 hrest
    · obtain ⟨hc, hrest⟩ := bsPaired_cons_other hd h
      have hcond : ¬ (((¬ (c = bsCh)) ∧ ¬ (c = '\n')) ∧ d = bsCh) := fun hh => hd hh.2
      simp only [onePass, if_neg hcond, List.mem_cons, not_or]
      exact ⟨fun hcc => hc hcc.symm, ih2 hrest⟩

/-- On fully paired text, the terminal-semantics fold agrees with one
substitution pass, for any starting accumulator. -/
theorem foldl_termStep_paired : ∀ cs : List Char, bsPaired cs = true →
    ∀ acc : List Char, cs.foldl termStep acc = (onePass cs).1.reverse ++ acc := by
  refine twoStepInduction (by simp [onePass]) (fun c => ?_) (fun c d rest ih1 ih2 => ?_)
  · intro h acc
    simp only [bsPaired, Bool.and_eq_true] at h
    have hc : ¬ (c = bsCh) := by simpa using h.1
    simp [onePass, termStep, hc]
  · intro h acc
    by_cases hd : d = bsCh
    · subst hd
      obtain ⟨hc, hrest⟩ := bsPaired_cons_bs h
      have hstep1 : termStep acc c = c :: acc := by simp [termStep, hc.1]
      have hstep2 : termStep (c :: acc) bsCh = acc := by
        simp [termStep, hc.1, hc.2]
      have hop : onePass (c :: bsCh :: rest) = ((onePass rest).1, (onePass rest).2 + 1) := by
        simp [onePass, hc.1, hc.2]
      rw [List.foldl_cons, hstep1, List.foldl_cons, hstep2, ih1 hrest acc, hop]
    · obtain ⟨hc, hrest⟩ := bsPaired_cons_other hd h
      have hstep1 : termStep acc c = c :: acc := by simp [termStep, hc]
      have hcond : ¬ (((¬ (c = bsCh)) ∧ ¬ (c = '\n')) ∧ d = bsCh) := fun hh => hd hh.2
      rw [List.foldl_cons, hstep1, ih2 hrest (c :: acc)]
      simp only [onePass, if_neg hcond]
      simp

/-- A text without backspaces is a fixed point of the whole loop. -/
theorem resolveBSAux_noBS (k : Nat) (cs : List Char) (h : bsCh ∉ cs) :
    resolveBSAux (k + 1) cs = cs := by
  simp [resolveBSAux, onePass_noBS cs h]

/-- On fully paired text the loop stabilizes after the first pass. -/
theorem resolveBS_paired (cs : List Char) (h : bsPaired cs = true) :
    resolveBS cs = (onePass cs).1 := by
  have hnb : bsCh ∉ (onePass cs).1 := onePass_paired_noBS cs h
  by_cases hz : (onePass cs).2 = 0
  · show resolveBSAux (cs.length + 1) cs = _
    simp [resolveBSAux, hz]
  · have h2 : 2 ≤ cs.length := by have := onePass_len cs; omega
    obtain ⟨k, hk⟩ : ∃ k, cs.length = k + 1 := ⟨cs.length - 1, by omega⟩
    show resolveBSAux (cs.length + 1) cs = _
    simp only [resolveBSAux, if_neg hz]
    rw [hk]
    exact resolveBSAux_noBS k _ hnb

/-- Claim C5: for text whose backspaces all occur as second halves of
character-backspace pairs not adjacent to newlines (every backspace is
immediately preceded by a character that is neither newline nor
backspace), the repeated backspace-resolution loop of
`StreamIO.write` yields text with zero backspace characters, equal to
the terminal-style erasure in which each backspace removes the
immediately preceding non-newline character. -/
theorem c5_backspace_resolution (cs : List Char) (h : bsPaired cs = true) :
    resolveBS cs = termErase cs ∧ bsCh ∉ resolveBS cs := by
  have hres := resolveBS_paired cs h
  have hnb : bsCh ∉ (onePass cs).1 := onePass_paired_noBS cs h
  have hte : termErase cs = (onePass cs).1 := by
    unfold termErase
    rw [foldl_termStep_paired cs h []]
    simp
  constructor
  · rw [hres, hte]
  · rw [hres]
    exact hnb

/-- Witness for C5 at the spec's own example: `"abc\bd"` resolves to
`"abd"`. -/
theorem c5_backspace_resolution_witness :
    bsPaired "abc\x08d".toList = true ∧
      (resolveBS "abc\x08d".toList = termErase "abc\x08d".toList ∧
        bsCh ∉ resolveBS "abc\x08d".toList) ∧
      termErase "abc\x08d".toList = "abd".toList :=
  ⟨by decide, c5_backspace_resolution _ (by decide), by decide⟩

theorem dropWhile_cons_length_lt (p : Char → Bool) (c : Char) (rest : List Char)
    (h : p c = true) : ((c :: rest).dropWhile p).length < (c :: rest).length := by
  rw [List.dropWhile_cons_of_pos h]
  exact Nat.lt_succ_of_le (List.dropWhile_sublist p).length_le

example : (pyTokens "a+b".toList).map String.mk = ["a", "", "+", "b", ""] := by decide
example : (pyTokens "\nab".toList).map String.mk = ["", "\n", "ab", ""] := by decide
example : (pyTokens "".toList).map String.mk = [""] := by decide
example : (pyTokens "disp(x);\n\ny.z".toList).map String.mk
    = ["disp", "", "(", "x", "", ");", "", "\n\n", "y.z", ""] := by decide

theorem pyTokensAux_flatten : ∀ (n : Nat) (cs : List Char), cs.length < n →
    (pyTokensAux n cs).flatten = cs := by
  intro n
  induction n with
  | zero => intro cs h; omega
  | succ n ih =>
      intro cs h
      match cs with
      | [] => simp [pyTokensAux]
      | c :: rest =>
          have hlen : ∀ p : Char → Bool, p c = true →
              ((c :: rest).dropWhile p).length < n := by
            intro p hp
            have := dropWhile_cons_length_lt p c rest hp
            simp only [List.length_cons] at h this
            omega
          by_cases h1 : idChar c
          · rw [pyTokensAux]
            simp only [if_pos h1, List.flatten_cons]
            rw [ih _ (hlen idChar h1)]
            exact List.takeWhile_append_dropWhile _ _
          · by_cases h2 : c = '\n'
            · rw [pyTokensAux]
              simp only [if_neg h1, if_pos h2, List.flatten_cons, List.nil_append]
              rw [ih _ (hlen _ (by simp [h2]))]
              exact List.takeWhile_append_dropWhile _ _
            · rw [pyTokensAux]
              simp only [if_neg h1, if_neg h2, List.flatten_cons, List.nil_append]
              rw [ih _ (hlen _ (by simp [otherChar, h1, h2]))]
              exact List.takeWhile_append_dropWhile _ _

/-- Claim C6: the tokenization grammar of `_re_tokens`, with its three
alternatives tried greedily left-to-right, produces a finite sequence
of non-overlapping tokens covering the entire input: the tokens
concatenated in order equal the input. -/
theorem c6_tokenizer_covers (cs : List Char) : (pyTokens cs).flatten = cs :=
  pyTokensAux_flatten (cs.length + 1) cs (Nat.lt_succ_self _)

/-- Claim C10: the backspace-resolution loop of `StreamIO.write`
terminates on every input: each substitution pass removes two
characters per replacement (so a pass with replacements strictly
shortens the text), and the loop, given an iteration budget of
`length + 1`, reaches a zero-replacement pass and returns the result
of the unbounded loop. -/
theorem c10_backspace_loop_terminates (cs : List Char) :
    (onePass cs).1.length + 2 * (onePass cs).2 = cs.length ∧
      bsLoopFuel (cs.length + 1) cs = some (resolveBS cs) := by
  refine ⟨onePass_len cs, ?_⟩
  obtain ⟨r, hr⟩ := bsLoopFuel_some cs.length cs (Nat.le_refl _)
  have haux : resolveBSAux (cs.length + 1) cs = r := bsLoopFuel_resolveAux _ _ _ hr
  show bsLoopFuel (cs.length + 1) cs = some (resolveBSAux (cs.length + 1) cs)
  rw [haux]
  exact hr

example : doExecute envPng "x = 1" false false 1 true
    = ([Ev.enginePrepare, Ev.engineGetCapture, Ev.engineEval "x = 1" "engine",
        Ev.engineWritePlots, Ev.fsOpen "t/000001.png", Ev.fsRead "t/000001.png",
        Ev.fsClose "t/000001.png",
        Ev.send (Msg.displayData "image/png" "PNGDATA")],
       Except.ok ⟨"ok", 1⟩) := by rfl

/-- Claim C4: capture mode resolution is a total, deterministic
function of the persisted mode, the `allow_stdin` flag and the
availability of the wrapper mechanism, with
`(auto, allowStdin, available) = (auto, true, true) -> wrapper`,
`(auto, false, _) -> engine`, `(wrapper, _, unavailable) -> engine`,
and explicit wrapper/engine values passing through when the wrapper
mechanism is available. -/
theorem c4_capture_mode_resolution :
    resolveCapture "auto" true true = "wrapper" ∧
    (∀ w : Bool, resolveCapture "auto" false w = "engine") ∧
    (∀ s : Bool, resolveCapture "wrapper" s false = "engine") ∧
    (∀ s : Bool, resolveCapture "wrapper" s true = "wrapper" ∧
      resolveCapture "engine" s true = "engine") := by
  refine ⟨rfl, ?_, ?_, ?_⟩ <;> intro b <;> cases b <;> simp [resolveCapture]

/-- Claim C1 is refuted by the code: `tiff` and `tiffn` are supported
plot formats and render to files with extension `.tiff`, but the
content-type table has no entry for `.tiff` (only `.tif`), so the
artifact-processing step fails with an uncaught `KeyError` instead of
assigning a content type. -/
theorem c1_tiff_extension_unmapped :
    "tiff" ∈ supportedFormats ∧ "tiffn" ∈ supportedFormats ∧
    MKernel_formats "tiff" = some "tiff" ∧ MKernel_formats "tiffn" = some "tiff" ∧
    extOf ("t/" ++ pad6 1 ++ "." ++ "tiff") = ".tiff" ∧
    mimetype ".tiff" = none ∧
    (processPlots (fun _ => "") ["t/000001.tiff"]).2 = Except.error ".tiff" := by
  refine ⟨by decide, by decide, rfl, rfl, by decide, rfl, rfl⟩

/-- The round-trip does hold for every non-tiff supported format: the
produced extension is in the content-type table. -/
theorem formats_mimetype_non_tiff :
    ∀ fmt ∈ ["png", "svg", "jpeg", "meta", "pdf", "eps", "epsc", "eps2", "eps2c"],
      ∀ e, MKernel_formats fmt = some e → (mimetype ("." ++ e)).isSome = true := by
  decide

/-- Claim C2 is refuted by the code: with plot format tiff and one
figure, `do_execute` raises an uncaught `KeyError` instead of
returning the ok reply.  The guest error itself is swallowed exactly
as claimed: the event trace is identical to that of an error-free
execution of the same request. -/
theorem c2_reply_lost_on_tiff_plot :
    (doExecute envTiff "1 +" false false 5 true).2 = Except.error ".tiff" ∧
    (doExecute envTiff "1 +" false false 5 true).1 =
      (doExecute { envTiff with evalOutcome := EvalOutcome.ok } "1 +" false false 5 true).1 := by
  exact ⟨rfl, rfl⟩

theorem destroyEngine_fst (b : Bool) : (destroyEngine b).1 = [Ev.engineDel] := by
  cases b <;> rfl

theorem sublist_middle {α : Type} (l pre post t : List α) (h : t = pre ++ (l ++ post)) :
    List.Sublist l t := by
  subst h
  exact (List.sublist_append_left l post).trans (List.sublist_append_right pre _)

/-- Claim C3: when the engine eval raises the stopped-by-the-user
signal, `do_execute` sends the fixed explanatory message to the stderr
stream, destroys the engine handle and then starts a fresh engine
before running plot extraction (in that order), the secondary failure
of the handle's own exit call changes nothing (it is swallowed), and
the normal ok reply is returned. -/
theorem c3_interrupt_restarts_engine
    (env : ExecEnv) (code : String) (silent allowStdin : Bool) (n : Nat) (w : Bool)
    (out err : String)
    (hq : codeStarts code quartoMagic = false)
    (hi : env.evalOutcome = EvalOutcome.interrupted)
    (hp : env.plotsOutcome = some (out, err))
    (hs : (processPlots env.contents (splitWS out)).2 = Except.ok ()) :
    Ev.send (Msg.stream "stderr" interruptMsg) ∈ (doExecute env code silent allowStdin n w).1 ∧
    List.Sublist [Ev.engineDel, Ev.engineStart, Ev.engineWritePlots]
      (doExecute env code silent allowStdin n w).1 ∧
    doExecute { env with delSystemError := true } code silent allowStdin n w
      = doExecute { env with delSystemError := false } code silent allowStdin n w ∧
    (doExecute env code silent allowStdin n w).2 = Except.ok ⟨"ok", n⟩ := by
  refine ⟨?_, ?_, ?_, ?_⟩
  · simp only [doExecute, hq, Bool.false_eq_true, if_false, hi, hp, destroyEngine_fst]
    simp
  · simp only [doExecute, hq, Bool.false_eq_true, if_false, hi, hp, destroyEngine_fst]
    cases hpe : env.prepareError with
    | none =>
        refine sublist_middle _
          [Ev.enginePrepare, Ev.engineGetCapture,
            Ev.engineEval code (resolveCapture ((env.captureAppData).getD "auto") allowStdin w),
            Ev.send (Msg.stream "stderr" interruptMsg)]
          ((if 0 < err.length then
              [Ev.send (Msg.stream "stderr" ("MKernel: Errors saving plots." ++ err))]
            else []) ++ (processPlots env.contents (splitWS out)).1) _ ?_
        simp
    | some e =>
        refine sublist_middle _
          [Ev.enginePrepare, Ev.send (Msg.stream "stderr" ("MKernel: " ++ e)),
            Ev.engineGetCapture,
            Ev.engineEval code (resolveCapture ((env.captureAppData).getD "auto") allowStdin w),
            Ev.send (Msg.stream "stderr" interruptMsg)]
          ((if 0 < err.length then
              [Ev.send (Msg.stream "stderr" ("MKernel: Errors saving plots." ++ err))]
            else []) ++ (processPlots env.contents (splitWS out)).1) _ ?_
        simp
  · simp only [doExecute, hq, Bool.false_eq_true, if_false, hi, hp, destroyEngine_fst]
  · simp only [doExecute, hq, Bool.false_eq_true, if_false, hi, hp, destroyEngine_fst, hs]

/-- Witness for C3 on `envQuit`. -/
theorem c3_interrupt_restarts_engine_witness :
    codeStarts "quit" quartoMagic = false ∧
    envQuit.evalOutcome = EvalOutcome.interrupted ∧
    envQuit.plotsOutcome = some ("t/000001.png\n", "") ∧
    (processPlots envQuit.contents (splitWS "t/000001.png\n")).2 = Except.ok () ∧
    (Ev.send (Msg.stream "stderr" interruptMsg) ∈ (doExecute envQuit "quit" false true 7 true).1 ∧
      List.Sublist [Ev.engineDel, Ev.engineStart, Ev.engineWritePlots]
        (doExecute envQuit "quit" false true 7 true).1 ∧
      doExecute { envQuit with delSystemError := true } "quit" false true 7 true
        = doExecute { envQuit with delSystemError := false } "quit" false true 7 true ∧
      (doExecute envQuit "quit" false true 7 true).2 = Except.ok ⟨"ok", 7⟩) :=
  ⟨by decide, rfl, rfl, rfl,
    c3_interrupt_restarts_engine envQuit "quit" false true 7 true "t/000001.png\n" ""
      (by decide) rfl rfl rfl⟩

/-- Claim C9: a request whose code starts with the Quarto setup marker
gets a status-ok reply carrying the execution counter, after a single
`execute_result` response marking the session daemonized, with no
engine call and no plot extraction (the trace holds nothing else). -/
theorem c9_quarto_setup_cell (env : ExecEnv) (code : String) (silent allowStdin : Bool)
    (n : Nat) (w : Bool) (h : codeStarts code quartoMagic = true) :
    doExecute env code silent allowStdin n w
      = ([Ev.send (Msg.executeResult n true)], Except.ok ⟨"ok", n⟩) := by
  unfold doExecute
  simp [h]

/-- Witness for C9 at a concrete Quarto setup cell. -/
theorem c9_quarto_setup_cell_witness :
    codeStarts "% setup 2d7a65c64eb8bb2b9cba670d8e11cef1\nx" quartoMagic = true ∧
    doExecute envPng "% setup 2d7a65c64eb8bb2b9cba670d8e11cef1\nx" false false 3 true
      = ([Ev.send (Msg.executeResult 3 true)], Except.ok ⟨"ok", 3⟩) :=
  ⟨by decide, c9_quarto_setup_cell envPng _ false false 3 true (by decide)⟩

@[simp] theorem evIsDelete_enginePrepare : evIsDelete Ev.enginePrepare = false := rfl
@[simp] theorem evIsDelete_engineGetCapture : evIsDelete Ev.engineGetCapture = false := rfl
@[simp] theorem evIsDelete_engineEval (c k : String) : evIsDelete (Ev.engineEval c k) = false := rfl
@[simp] theorem evIsDelete_engineDel : evIsDelete Ev.engineDel = false := rfl
@[simp] theorem evIsDelete_engineStart : evIsDelete Ev.engineStart = false := rfl
@[simp] theorem evIsDelete_engineWritePlots : evIsDelete Ev.engineWritePlots = false := rfl
@[simp] theorem evIsDelete_fsOpen (f : String) : evIsDelete (Ev.fsOpen f) = false := rfl
@[simp] theorem evIsDelete_fsRead (f : String) : evIsDelete (Ev.fsRead f) = false := rfl
@[simp] theorem evIsDelete_fsClose (f : String) : evIsDelete (Ev.fsClose f) = false := rfl
@[simp] theorem evIsDelete_send (m : Msg) : evIsDelete (Ev.send m) = false := rfl

/-- The plot-processing loop performs no file deletion. -/
theorem processPlots_no_delete (contents : String → String) :
    ∀ l : List String, ∀ x ∈ (processPlots contents l).1, evIsDelete x = false
  | [] => by simp [processPlots]
  | f :: rest => by
      intro x hx
      cases hmt : mimetype (extOf f) with
      | none =>
          simp only [processPlots, hmt, List.mem_cons, List.not_mem_nil, or_false] at hx
          rcases hx with rfl | rfl | rfl <;> simp
      | some mt =>
          simp only [processPlots, hmt, List.mem_append, List.mem_cons] at hx
          rcases hx with (rfl | rfl | rfl | h) | (rfl | h)
          · simp
          · simp
          · simp
          · exact absurd h (List.not_mem_nil x)
          · simp
          · exact processPlots_no_delete contents rest x h

/-- Every artifact whose extension resolves is opened, read, closed
and sent by the plot-processing loop, provided every earlier artifact
also resolves. -/
theorem processPlots_mem (contents : String → String) :
    ∀ (l : List String) (f mt : String),
      (∀ g ∈ l, (mimetype (extOf g)).isSome = true) →
      f ∈ l → mimetype (extOf f) = some mt →
      Ev.fsOpen f ∈ (processPlots contents l).1 ∧
      Ev.fsRead f ∈ (processPlots contents l).1 ∧
      Ev.fsClose f ∈ (processPlots contents l).1 ∧
      Ev.send (Msg.displayData mt (contents f)) ∈ (processPlots contents l).1
  | [], f, mt, _, hf, _ => absurd hf (List.not_mem_nil f)
  | g :: rest, f, mt, hall, hf, hm => by
      have hg : (mimetype (extOf g)).isSome = true := hall g (List.mem_cons_self g rest)
      obtain ⟨mtg, hmtg⟩ := Option.isSome_iff_exists.mp hg
      rcases List.mem_cons.mp hf with hfg | hfr
      · subst hfg
        rw [hmtg] at hm
        obtain rfl : mtg = mt := Option.some.inj hm
        simp [processPlots, hmtg]
      · have ih := processPlots_mem contents rest f mt
          (fun x hx => hall x (List.mem_cons_of_mem g hx)) hfr hm
        refine ⟨?_, ?_, ?_, ?_⟩ <;>
          simp [processPlots, hmtg, ih.1, ih.2.1, ih.2.2.1, ih.2.2.2]

/-- `do_execute` never deletes a file, on any path. -/
theorem doExecute_no_delete (env : ExecEnv) (code : String) (silent allowStdin : Bool)
    (n : Nat) (w : Bool) :
    ((doExecute env code silent allowStdin n w).1.all (fun e => !(evIsDelete e))) = true := by
  by_cases hq : codeStarts code quartoMagic
  · simp [doExecute, hq]
  · simp only [doExecute, hq, Bool.false_eq_true, if_false]
    rcases hpo : env.plotsOutcome with _ | ⟨out, err⟩
    · cases hpe : env.prepareError <;>
        cases ho : env.evalOutcome <;>
          simp [destroyEngine_fst, processPlots]
    · by_cases herr : 0 < err.length <;>
        cases hpe : env.prepareError <;>
          cases ho : env.evalOutcome <;>
            simp [herr, destroyEngine_fst] <;>
              exact processPlots_no_delete env.contents (splitWS out)

/-- Claim C7 is refuted by the code: in a benign execution with one
PNG figure the artifact's bytes are read and the display artifact is
sent, but no file-delete event ever occurs before `do_execute`
returns — the file is merely closed and left on disk. -/
theorem c7_counterexample_no_delete :
    Ev.send (Msg.displayData "image/png" "PNGDATA")
        ∈ (doExecute envPng "x = 1" false false 1 true).1 ∧
    ((doExecute envPng "x = 1" false false 1 true).1.all (fun e => !(evIsDelete e))) = true :=
  ⟨by decide, by decide⟩

/-- Claim C7 amended: for every plot artifact produced during an
execution, its file is opened, its bytes read, the file handle closed,
and the display artifact sent — but the file is not destroyed:
`do_execute` performs no file deletion before returning. -/
theorem c7_artifact_read_sent_closed_not_deleted
    (env : ExecEnv) (code : String) (silent allowStdin : Bool) (n : Nat) (w : Bool)
    (out err f mt : String)
    (hq : codeStarts code quartoMagic = false)
    (hp : env.plotsOutcome = some (out, err))
    (hall : ∀ g ∈ splitWS out, (mimetype (extOf g)).isSome = true)
    (hf : f ∈ splitWS out)
    (hm : mimetype (extOf f) = some mt) :
    Ev.fsOpen f ∈ (doExecute env code silent allowStdin n w).1 ∧
    Ev.fsRead f ∈ (doExecute env code silent allowStdin n w).1 ∧
    Ev.fsClose f ∈ (doExecute env code silent allowStdin n w).1 ∧
    Ev.send (Msg.displayData mt (env.contents f)) ∈ (doExecute env code silent allowStdin n w).1 ∧
    ((doExecute env code silent allowStdin n w).1.all (fun e => !(evIsDelete e))) = true := by
  have hmem := processPlots_mem env.contents (splitWS out) f mt hall hf hm
  have hlift : ∀ x : Ev, x ∈ (processPlots env.contents (splitWS out)).1 →
      x ∈ (doExecute env code silent allowStdin n w).1 := by
    intro x hx
    simp only [doExecute, hq, Bool.false_eq_true, if_false, hp]
    simp [hx]
  exact ⟨hlift _ hmem.1, hlift _ hmem.2.1, hlift _ hmem.2.2.1, hlift _ hmem.2.2.2,
    doExecute_no_delete env code silent allowStdin n w⟩

/-- Witness for the amended C7 on the benign PNG execution. -/
theorem c7_artifact_read_sent_closed_not_deleted_witness :
    codeStarts "x = 1" quartoMagic = false ∧
    envPng.plotsOutcome = some ("t/000001.png\n", "") ∧
    (∀ g ∈ splitWS "t/000001.png\n", (mimetype (extOf g)).isSome = true) ∧
    "t/000001.png" ∈ splitWS "t/000001.png\n" ∧
    mimetype (extOf "t/000001.png") = some "image/png" ∧
    (Ev.fsOpen "t/000001.png" ∈ (doExecute envPng "x = 1" false false 1 true).1 ∧
      Ev.fsRead "t/000001.png" ∈ (doExecute envPng "x = 1" false false 1 true).1 ∧
      Ev.fsClose "t/000001.png" ∈ (doExecute envPng "x = 1" false false 1 true).1 ∧
      Ev.send (Msg.displayData "image/png" (envPng.contents "t/000001.png"))
          ∈ (doExecute envPng "x = 1" false false 1 true).1 ∧
      ((doExecute envPng "x = 1" false false 1 true).1.all (fun e => !(evIsDelete e))) = true) :=
  ⟨by decide, rfl, by decide, by decide, by decide,
    c7_artifact_read_sent_closed_not_deleted envPng "x = 1" false false 1 true
      "t/000001.png\n" "" "t/000001.png" "image/png"
      (by decide) rfl (by decide) (by decide) (by decide)⟩

example : writePlotsScript 96 ⟨some "inline", some "tiff", some 96, some "auto"⟩
    [⟨1, false, ""⟩] "t" = Except.ok ("t/000001.tiff\n", "", []) := rfl
example : writePlotsScript 96 ⟨none, none, none, none⟩ [⟨1, false, ""⟩, ⟨2, false, ""⟩] "t"
    = Except.ok ("t/000001.png\nt/000002.png\n", "", []) := rfl
example : writePlotsScript 96 ⟨some "Nonsense", none, none, none⟩ [] "t"
    = Except.error "Unknown plot backend 'nonsense'" := rfl

/-- The backend a successful `_get_check_set` validates is the
lower-cased persisted value (defaulted to inline). -/
theorem getCheckSet_backend (dpi : Int) (ad : AppData) (cfg : PlotConfig) (ad2 : AppData)
    (h : getCheckSet dpi ad = Except.ok (cfg, ad2)) :
    cfg.backend = lowerStr ((ad.plot_backend).getD "inline") := by
  simp only [getCheckSet] at h
  split_ifs at h
  rw [Except.ok.injEq, Prod.mk.injEq] at h
  obtain ⟨h1, h2⟩ := h
  subst h1
  rfl

@[simp] theorem evIsDisplay_enginePrepare : evIsDisplay Ev.enginePrepare = false := rfl
@[simp] theorem evIsDisplay_engineGetCapture : evIsDisplay Ev.engineGetCapture = false := rfl
@[simp] theorem evIsDisplay_engineEval (c k : String) :
    evIsDisplay (Ev.engineEval c k) = false := rfl
@[simp] theorem evIsDisplay_engineDel : evIsDisplay Ev.engineDel = false := rfl
@[simp] theorem evIsDisplay_engineStart : evIsDisplay Ev.engineStart = false := rfl
@[simp] theorem evIsDisplay_engineWritePlots : evIsDisplay Ev.engineWritePlots = false := rfl
@[simp] theorem evIsDisplay_fsOpen (f : String) : evIsDisplay (Ev.fsOpen f) = false := rfl
@[simp] theorem evIsDisplay_fsRead (f : String) : evIsDisplay (Ev.fsRead f) = false := rfl
@[simp] theorem evIsDisplay_fsClose (f : String) : evIsDisplay (Ev.fsClose f) = false := rfl
@[simp] theorem evIsDisplay_fsDelete (f : String) : evIsDisplay (Ev.fsDelete f) = false := rfl
@[simp] theorem evIsDisplay_stream (a b : String) :
    evIsDisplay (Ev.send (Msg.stream a b)) = false := rfl
@[simp] theorem evIsDisplay_executeResult (n : Nat) (b : Bool) :
    evIsDisplay (Ev.send (Msg.executeResult n b)) = false := rfl

/-- When the plot script wrote no filenames, `do_execute` emits no
display-data message at all. -/
theorem doExecute_no_display (env : ExecEnv) (code : String) (silent allowStdin : Bool)
    (n : Nat) (w : Bool) (e : String) (hp : env.plotsOutcome = some ("", e)) :
    ((doExecute env code silent allowStdin n w).1.all (fun ev => !(evIsDisplay ev))) = true := by
  by_cases hq : codeStarts code quartoMagic
  · simp [doExecute, hq]
  · simp only [doExecute, hq, Bool.false_eq_true, if_false, hp]
    by_cases herr : 0 < e.length <;>
      cases hpe : env.prepareError <;>
        cases ho : env.evalOutcome <;>
          simp [herr, destroyEngine_fst, splitWS, splitWSList, processPlots]

/-- Claim C8: when the persisted plot backend is native at
plot-extraction time, the pipeline produces zero artifacts regardless
of the open figure windows: the script writes no filename, leaves the
figures untouched, and the execution emits no display-data message. -/
theorem c8_native_backend_no_artifacts
    (dpi : Int) (ad : AppData) (figs : List Figure) (tmpdir : String)
    (cfg : PlotConfig) (ad2 : AppData)
    (env : ExecEnv) (code : String) (silent allowStdin : Bool) (n : Nat) (w : Bool) (e : String)
    (hb : ad.plot_backend = some "native")
    (hok : getCheckSet dpi ad = Except.ok (cfg, ad2))
    (hp : env.plotsOutcome = some ("", e)) :
    writePlotsScript dpi ad figs tmpdir = Except.ok ("", "", figs) ∧
    ((doExecute env code silent allowStdin n w).1.all (fun ev => !(evIsDisplay ev))) = true := by
  constructor
  · have hb2 : cfg.backend = "native" := by
      rw [getCheckSet_backend dpi ad cfg ad2 hok, hb]
      rfl
    simp only [writePlotsScript, hok]
    rw [if_neg (by rw [hb2]; decide)]
  · exact doExecute_no_display env code silent allowStdin n w e hp

/-- Witness for C8 with one open figure and screen resolution 96. -/
theorem c8_native_backend_no_artifacts_witness :
    adNative.plot_backend = some "native" ∧
    getCheckSet 96 adNative
      = Except.ok (⟨"native", "png", 96, "auto"⟩,
          ⟨some "native", some "png", some 96, some "auto"⟩) ∧
    envNative.plotsOutcome = some ("", "") ∧
    (writePlotsScript 96 adNative [⟨1, false, ""⟩] "t"
        = Except.ok ("", "", [⟨1, false, ""⟩]) ∧
      ((doExecute envNative "plot(1)" false false 2 true).1.all
          (fun ev => !(evIsDisplay ev))) = true) :=
  ⟨rfl, rfl, rfl,
    c8_native_backend_no_artifacts 96 adNative [⟨1, false, ""⟩] "t"
      ⟨"native", "png", 96, "auto"⟩ ⟨some "native", some "png", some 96, some "auto"⟩
      envNative "plot(1)" false false 2 true "" rfl rfl rfl⟩

end MKernel
